import Mathlib

/-!
Verification development for the `genai_validator` repository.

The Python modules are shallowly embedded:
* dictionaries of strings become association lists (`StrDict`);
* floating-point scores become exact rationals (`ℚ`) — the arithmetic the
  spec talks about (difference, mean, relative improvement) is exact;
* external collaborators (the Azure chat-completion endpoint, the Bedrock
  runtime, the ragas scorers, the S3 object store) become function or data
  parameters, since the source treats them as black boxes;
* fallible Python code becomes `Except PyErr _`, with one constructor per
  exception class the source can raise on the modelled paths.
-/

namespace GenAIValidator

/-- A Python `dict[str, str]`, as an association list (keys are unique in all
dictionaries the source builds, and lookup finds the first binding). -/
abbrev StrDict := List (String × String)

/-- Exceptions raised on the modelled control paths:
`ValueError(msg)` (challenger selection), `KeyError(key)` (dict subscript on a
missing key), and `ZeroDivisionError` (float division by zero). -/
inductive PyErr where
  | valueError (msg : String)
  | keyError (key : String)
  | zeroDivisionError
deriving DecidableEq, Repr

/-- Whether an error is a `KeyError`. -/
def PyErr.isKeyError : PyErr → Bool
  | .keyError _ => true
  | _ => false

/-- A test-data record built by `generate_test_data` (the five keys of the
dict literal in `models/azure.py` / `models/bedrock.py`). -/
structure TestDataItem where
  context : String
  question : String
  ground_truth : String
  original_question : String
  original_answer : String
deriving DecidableEq, Repr

/-- Python's `needle in haystack` on strings, over character lists: the
needle is a prefix of some suffix of the haystack. -/
def strContains (haystack needle : List Char) : Bool :=
  match haystack with
  | [] => needle.isPrefixOf []
  | _ :: rest => needle.isPrefixOf haystack || strContains rest needle

/-- Python's `str.lower()`, character by character. -/
def pyLower (s : String) : String := ⟨s.data.map Char.toLower⟩

/-- Python's `str.endswith(suffix)`. -/
def pyEndsWith (s suffix : String) : Bool := List.isSuffixOf suffix.data s.data

/-- The capability interface of `models/base.py` (`BaseModel`): a model as the
validator and the metrics calculator see it.  `generate_response prompt
context` is the single text-generation call; contexts are `Option String`
because Python defaults them to `None`. -/
structure GenAIModel where
  generate_response : String → Option String → String
  generate_test_data : List StrDict → List TestDataItem
  batch_generate : List String → Option (List (Option String)) → List String

/-! ### Azure provider variant (`models/azure.py`) -/

/-- One chat message, as built by `AzureOpenAIModel._format_prompt`. -/
structure ChatMessage where
  role : String
  content : String
deriving DecidableEq, Repr

/-- Embeds `AzureOpenAIModel`: deployment name, token limit, and the external Azure
chat-completion endpoint (`self.client.chat.completions.create`), abstracted
as a function from the message list to the returned content. -/
structure AzureOpenAIModel where
  deployment_name : String
  max_tokens : Nat := 1000
  chat_complete : List ChatMessage → String

/-- Embeds `AzureOpenAIModel._format_prompt`: an optional system message carrying the
context (only when the context is truthy, i.e. present and non-empty),
followed by the user prompt. -/
def AzureOpenAIModel.format_prompt (prompt : String) (context : Option String) :
    List ChatMessage :=
  let sys : List ChatMessage :=
    match context with
    | some c =>
        if c = "" then []
        else [⟨"system", "Use the following context to answer the question: " ++ c⟩]
    | none => []
  sys ++ [⟨"user", prompt⟩]

/-- Embeds `AzureOpenAIModel.generate_response`. -/
def AzureOpenAIModel.generate_response (m : AzureOpenAIModel)
    (prompt : String) (context : Option String) : String :=
  m.chat_complete (AzureOpenAIModel.format_prompt prompt context)

/-- Embeds `AzureOpenAIModel.batch_generate`: contexts default to `None` per prompt;
`zip` pairs prompts with contexts (truncating to the shorter list). -/
def AzureOpenAIModel.batch_generate (m : AzureOpenAIModel)
    (prompts : List String) (contexts : Option (List (Option String))) : List String :=
  let cs := contexts.getD (List.replicate prompts.length none)
  (prompts.zip cs).map (fun pc => m.generate_response pc.1 pc.2)

/-- The question-synthesis prompt shared verbatim by both provider variants. -/
def question_prompt (context original_question : String) : String :=
  "Based on the following context and original question, " ++
  "generate a new, related but different question that tests " ++
  "similar knowledge or understanding:\n\n" ++
  "Context: " ++ context ++ "\n" ++
  "Original Question: " ++ original_question ++ "\n\n" ++
  "Generate a new question:"

/-- The ground-truth-synthesis prompt shared verbatim by both variants. -/
def answer_prompt (context new_question : String) : String :=
  "Context: " ++ context ++ "\n" ++
  "Question: " ++ new_question ++ "\n\n" ++
  "Provide a detailed and accurate answer:"

/-- Embeds `AzureOpenAIModel.generate_test_data`: two chained generation calls per
development example, in input order (`item.get(key, "")` is
`(item.lookup key).getD ""`). -/
def AzureOpenAIModel.generate_test_data (m : AzureOpenAIModel)
    (development_data : List StrDict) : List TestDataItem :=
  development_data.map (fun item =>
    let context := (item.lookup "context").getD ""
    let original_question := (item.lookup "question").getD ""
    let new_question := m.generate_response (question_prompt context original_question) none
    let ground_truth := m.generate_response (answer_prompt context new_question) none
    { context := context
      question := new_question
      ground_truth := ground_truth
      original_question := original_question
      original_answer := (item.lookup "answer").getD "" })

/-! ### Bedrock provider variant (`models/bedrock.py`) -/

/-- Embeds `BedrockModel`: model id, token limit, and the external Bedrock runtime
(`self.client.invoke_model`), abstracted as a function from the formatted
prompt in the request body to the returned completion. -/
structure BedrockModel where
  model_id : String
  max_tokens : Nat := 1000
  invoke_model : String → String

/-- Embeds `BedrockModel._format_prompt`: with a truthy context, Claude-family models
get a conversational template, others a plain `Context/Question` block. -/
def BedrockModel.format_prompt (m : BedrockModel)
    (prompt : String) (context : Option String) : String :=
  match context with
  | some c =>
      if c = "" then prompt
      else if strContains (pyLower m.model_id).toList "claude".toList then
        "Context: " ++ c ++ "\n\nHuman: " ++ prompt ++ "\n\nAssistant:"
      else
        "Context: " ++ c ++ "\nQuestion: " ++ prompt
  | none => prompt

/-- Embeds `BedrockModel.generate_response`. -/
def BedrockModel.generate_response (m : BedrockModel)
    (prompt : String) (context : Option String) : String :=
  m.invoke_model (m.format_prompt prompt context)

/-- Embeds `BedrockModel.batch_generate` (same shape as the Azure variant). -/
def BedrockModel.batch_generate (m : BedrockModel)
    (prompts : List String) (contexts : Option (List (Option String))) : List String :=
  let cs := contexts.getD (List.replicate prompts.length none)
  (prompts.zip cs).map (fun pc => m.generate_response pc.1 pc.2)

/-- Embeds `BedrockModel.generate_test_data` (same prompt texts as the Azure
variant, routed through the Bedrock transport). -/
def BedrockModel.generate_test_data (m : BedrockModel)
    (development_data : List StrDict) : List TestDataItem :=
  development_data.map (fun item =>
    let context := (item.lookup "context").getD ""
    let original_question := (item.lookup "question").getD ""
    let new_question := m.generate_response (question_prompt context original_question) none
    let ground_truth := m.generate_response (answer_prompt context new_question) none
    { context := context
      question := new_question
      ground_truth := ground_truth
      original_question := original_question
      original_answer := (item.lookup "answer").getD "" })

/-! ### Metrics calculator (`metrics.py`) -/

/-- A per-item external scorer (`evaluator.score(question=..., answer=...,
context=...)` from the ragas library), abstracted as a function
`question → answer → context → score`. -/
abbrev Scorer := String → String → String → ℚ

/-- Embeds `MetricsCalculator`: the four external evaluators the constructor builds
(`Faithfulness()`, `ContextRelevancy()`, `AnswerRelevancy()`,
`ContextRecall()`), abstracted as scorer functions. -/
structure MetricsCalculator where
  faithfulness_scorer : Scorer
  context_relevancy_scorer : Scorer
  answer_relevancy_scorer : Scorer
  context_recall_scorer : Scorer

/-- The shared body of the four `_calculate_*` methods: for each test item,
ask the model to answer the item's question given its context, score the
`(question, answer, context)` triple, collect the scores, and return
`sum(scores) / len(scores) if scores else 0.0`. -/
def score_loop (scorer : Scorer) (model : GenAIModel)
    (test_data : List TestDataItem) : ℚ :=
  let scores := test_data.map (fun item =>
    scorer item.question (model.generate_response item.question (some item.context))
      item.context)
  if scores = [] then 0 else scores.sum / (scores.length : ℚ)

/-- Embeds `MetricsCalculator._calculate_faithfulness`. -/
def MetricsCalculator.calculate_faithfulness (mc : MetricsCalculator)
    (model : GenAIModel) (test_data : List TestDataItem) : ℚ :=
  score_loop mc.faithfulness_scorer model test_data

/-- Embeds `MetricsCalculator._calculate_context_utilization` (scored by the
`ContextRelevancy` evaluator). -/
def MetricsCalculator.calculate_context_utilization (mc : MetricsCalculator)
    (model : GenAIModel) (test_data : List TestDataItem) : ℚ :=
  score_loop mc.context_relevancy_scorer model test_data

/-- Embeds `MetricsCalculator._calculate_answer_relevancy`. -/
def MetricsCalculator.calculate_answer_relevancy (mc : MetricsCalculator)
    (model : GenAIModel) (test_data : List TestDataItem) : ℚ :=
  score_loop mc.answer_relevancy_scorer model test_data

/-- Embeds `MetricsCalculator._calculate_context_recall`. -/
def MetricsCalculator.calculate_context_recall (mc : MetricsCalculator)
    (model : GenAIModel) (test_data : List TestDataItem) : ℚ :=
  score_loop mc.context_recall_scorer model test_data

/-- Embeds `self.available_metrics`: the registry dict built in
`MetricsCalculator.__init__`, in insertion order. -/
def MetricsCalculator.available_metrics (mc : MetricsCalculator) :
    List (String × (GenAIModel → List TestDataItem → ℚ)) :=
  [("faithfulness", mc.calculate_faithfulness),
   ("context_utilization", mc.calculate_context_utilization),
   ("answer_relevancy", mc.calculate_answer_relevancy),
   ("context_recall", mc.calculate_context_recall)]

/-- The registry's key set, `list(self.available_metrics.keys())`. -/
def registered_metric_names : List String :=
  ["faithfulness", "context_utilization", "answer_relevancy", "context_recall"]

/-- The `for metric in metrics` loop of `calculate_metrics`: unknown names
are skipped (after a printed warning), known names are bound to their
calculator's score, in iteration order. -/
def calc_loop (mc : MetricsCalculator) (model : GenAIModel)
    (test_data : List TestDataItem) : List String → List (String × ℚ)
  | [] => []
  | metric :: rest =>
    match mc.available_metrics.lookup metric with
    | none => calc_loop mc model test_data rest
    | some calculator => (metric, calculator model test_data) :: calc_loop mc model test_data rest

/-- Embeds `MetricsCalculator.calculate_metrics`: `metrics` defaults to all
registered metric names. -/
def MetricsCalculator.calculate_metrics (mc : MetricsCalculator)
    (model : GenAIModel) (test_data : List TestDataItem)
    (metrics : Option (List String)) : List (String × ℚ) :=
  calc_loop mc model test_data (metrics.getD registered_metric_names)

/-! ### Challenger selector (`challenger.py`) -/

/-- One row of the task table (`self.task_models[...]`). -/
structure ModelSpec where
  model : String
  provider : String
  benchmark_score : ℚ
  benchmark_name : String
deriving DecidableEq, Repr

/-- The static task table built in `ChallengerSelector.__init__`. -/
def task_models : List (String × ModelSpec) :=
  [("qa", ⟨"gpt-4", "azure", 92/100, "SQuAD 2.0"⟩),
   ("summarization", ⟨"anthropic.claude-v2", "bedrock", 89/100, "ROUGE-L on CNN/DailyMail"⟩),
   ("reasoning", ⟨"gpt-4", "azure", 90/100, "GSM8K"⟩)]

/-- Embeds `ChallengerSelector`: holds `task_type.lower()`. -/
structure ChallengerSelector where
  task_type : String

/-- Embeds `ChallengerSelector.__init__` (lower-cases the task tag). -/
def ChallengerSelector.mkSelector (task_type : String) : ChallengerSelector :=
  ⟨pyLower task_type⟩

/-- The message of the `ValueError` raised on an unknown task tag. -/
def unknown_task_msg (task_type : String) : String :=
  "Unknown task type: " ++ task_type ++
  ". Available tasks: ['qa', 'summarization', 'reasoning']"

/-- The message of the `ValueError` raised when Azure credentials are needed
but falsy. -/
def azure_creds_msg : String :=
  "Azure credentials required for the selected challenger model"

/-- The message of the `ValueError` raised when AWS credentials are needed
but falsy. -/
def aws_creds_msg : String :=
  "AWS credentials required for the selected challenger model"

/-- Python truthiness of an optional credentials dict: `not x` holds for
`None` and for the empty dict. -/
def credsFalsy : Option StrDict → Bool
  | none => true
  | some [] => true
  | some (_ :: _) => false

/-- The challenger model as `get_best_model` constructs it (the provider
client constructors are external; their arguments are what the source
passes). -/
inductive ConstructedModel where
  | azure (deployment_name api_key api_base api_version : String)
  | bedrock (model_id : String) (credentials : StrDict)
deriving DecidableEq, Repr

/-- Embeds `ChallengerSelector.get_best_model`: table lookup, credential truthiness
check per provider, then construction; dict subscripts on the Azure
credential dict raise `KeyError` when the key is missing. -/
def ChallengerSelector.get_best_model (s : ChallengerSelector)
    (azure_credentials bedrock_credentials : Option StrDict) :
    Except PyErr ConstructedModel :=
  match task_models.lookup s.task_type with
  | none => .error (.valueError (unknown_task_msg s.task_type))
  | some model_info =>
    if model_info.provider = "azure" then
      if credsFalsy azure_credentials then .error (.valueError azure_creds_msg)
      else
        let creds := azure_credentials.getD []
        match creds.lookup "api_key" with
        | none => .error (.keyError "api_key")
        | some api_key =>
          match creds.lookup "api_base" with
          | none => .error (.keyError "api_base")
          | some api_base =>
            .ok (.azure model_info.model api_key api_base
              ((creds.lookup "api_version").getD "2024-02-15-preview"))
    else if model_info.provider = "bedrock" then
      if credsFalsy bedrock_credentials then .error (.valueError aws_creds_msg)
      else .ok (.bedrock model_info.model (bedrock_credentials.getD []))
    else .error (.valueError ("Unknown provider: " ++ model_info.provider))

/-! ### Validator (`validator.py`) -/

/-- One `comparison_metrics` entry. -/
structure ComparisonEntry where
  difference : ℚ
  relative_improvement : ℚ
deriving DecidableEq, Repr

/-- The `ValidationResults` pydantic model (report generation aside). -/
structure ValidationResults where
  original_metrics : List (String × ℚ)
  challenger_metrics : List (String × ℚ)
  comparison_metrics : List (String × ComparisonEntry)
deriving DecidableEq, Repr

/-- The `for metric in metrics` comparison loop of `ModelValidator.validate`:
subscripting either result dict on a missing metric raises `KeyError`, and
`relative_improvement` raises `ZeroDivisionError` when the original value is
zero; the first failure aborts the loop. -/
def comparison_loop (original_results challenger_results : List (String × ℚ)) :
    List String → Except PyErr (List (String × ComparisonEntry))
  | [] => .ok []
  | metric :: rest =>
    match original_results.lookup metric with
    | none => .error (.keyError metric)
    | some orig_value =>
      match challenger_results.lookup metric with
      | none => .error (.keyError metric)
      | some chall_value =>
        if orig_value = 0 then .error .zeroDivisionError
        else
          match comparison_loop original_results challenger_results rest with
          | .error e => .error e
          | .ok comp =>
            .ok ((metric, ⟨chall_value - orig_value,
              (chall_value - orig_value) / orig_value⟩) :: comp)

/-- The default metric list of `ModelValidator.validate`. -/
def default_validate_metrics : List String :=
  ["faithfulness", "context_utilization", "answer_relevancy"]

/-- Embeds `ModelValidator.validate`: synthesize test data once via the challenger,
score both models on it, then compare per requested metric. -/
def validate (mc : MetricsCalculator) (original_model challenger_model : GenAIModel)
    (development_data : List StrDict) (metrics : Option (List String)) :
    Except PyErr ValidationResults :=
  let ms := metrics.getD default_validate_metrics
  let test_data := challenger_model.generate_test_data development_data
  let original_results := mc.calculate_metrics original_model test_data (some ms)
  let challenger_results := mc.calculate_metrics challenger_model test_data (some ms)
  match comparison_loop original_results challenger_results ms with
  | .error e => .error e
  | .ok comparison_metrics =>
    .ok ⟨original_results, challenger_results, comparison_metrics⟩

/-- Embeds `ModelValidator.__init__` with no challenger supplied calls
`ChallengerSelector(task_type=task_type).get_best_model()` — both credential
arguments defaulted to `None`.  `instantiate` stands for the external client
construction turning the selector's result into a usable model. -/
def model_validator_init (instantiate : ConstructedModel → GenAIModel)
    (original_model : GenAIModel) (challenger_model : Option GenAIModel)
    (task_type : String) : Except PyErr (GenAIModel × GenAIModel) :=
  match challenger_model with
  | some c => .ok (original_model, c)
  | none =>
    match (ChallengerSelector.mkSelector task_type).get_best_model none none with
    | .error e => .error e
    | .ok cm => .ok (original_model, instantiate cm)

/-! ### S3 data extractor (`data.py`) -/

/-- The JSON value a stored object parses to: a single record or a list of
records (the two shapes `extract` distinguishes with `isinstance(data, list)`). -/
inductive JsonData where
  | single (d : StrDict)
  | many (ds : List StrDict)
deriving DecidableEq, Repr

/-- One listed S3 object: its key and the outcome of reading it
(`Except.error ()` is a `ClientError` from `get_object`/`read`). -/
structure S3Object where
  key : String
  read : Except Unit JsonData
deriving Repr

/-- Embeds `S3DataExtractor._read_json_file`: a `ClientError` is caught, logged, and
replaced by the empty dict. -/
def read_json_file (o : S3Object) : JsonData :=
  match o.read with
  | .ok data => data
  | .error _ => .single []

/-- Embeds `S3DataExtractor.extract`, over the successfully listed objects (the
paginator is external; its pages are flattened into one key sequence):
non-`.json` keys are skipped, a parsed list is `extend`ed, anything else is
`append`ed. -/
def extract : List S3Object → List StrDict
  | [] => []
  | o :: rest =>
    if pyEndsWith o.key ".json" then
      (match read_json_file o with
       | .many ds => ds
       | .single d => [d]) ++ extract rest
    else extract rest

/-! ### Concrete instances used by witnesses and counterexamples -/

/-- Which external scorer backs each registered metric name. -/
def scorer_for (mc : MetricsCalculator) (name : String) : Option Scorer :=
  if name = "faithfulness" then some mc.faithfulness_scorer
  else if name = "context_utilization" then some mc.context_relevancy_scorer
  else if name = "answer_relevancy" then some mc.answer_relevancy_scorer
  else if name = "context_recall" then some mc.context_recall_scorer
  else none

/-- The per-item external scorer outputs for a test-data sequence, in input
order (the claim's notion of the score list behind the mean). -/
def external_scores (scorer : Scorer) (model : GenAIModel)
    (test_data : List TestDataItem) : List ℚ :=
  test_data.map (fun item =>
    scorer item.question (model.generate_response item.question (some item.context))
      item.context)

/-- Arithmetic mean with the explicit empty-input policy (`0.0` on empty). -/
def meanQ (scores : List ℚ) : ℚ :=
  if scores = [] then 0 else scores.sum / (scores.length : ℚ)

/-- Concrete development example used by witnesses. -/
def devItem₀ : StrDict := [("context", "c0"), ("question", "Q0"), ("answer", "A0")]

/-- Concrete Azure variant used by witnesses (external endpoint stubbed). -/
def azure₀ : AzureOpenAIModel := ⟨"gpt-4", 1000, fun _ => "azure-out"⟩

/-- Concrete Bedrock variant used by witnesses (external runtime stubbed). -/
def bedrock₀ : BedrockModel := ⟨"anthropic.claude-v2", 1000, fun _ => "bedrock-out"⟩

/-- Concrete test-data record used by witnesses and counterexamples. -/
def demoItem : TestDataItem := ⟨"ctx", "q0", "gt", "oq", "oa"⟩

/-- Concrete scorer: distinguishes the two demo models by their answer. -/
def demoScorer : Scorer :=
  fun _ answer _ => if answer = "orig-answer" then 4/5 else 22/25

/-- Concrete metrics calculator over the demo scorer. -/
def demoCalc : MetricsCalculator := ⟨demoScorer, demoScorer, demoScorer, demoScorer⟩

/-- Concrete original model (its synthesized test data is empty). -/
def origModel : GenAIModel := ⟨fun _ _ => "orig-answer", fun _ => [], fun _ _ => []⟩

/-- Concrete challenger model (synthesizes one test item). -/
def challModel : GenAIModel := ⟨fun _ _ => "chall-answer", fun _ => [demoItem], fun _ _ => []⟩

/-- Expected result of `validate` on the demo models: original scores 0.80,
challenger 0.88, difference 0.08, relative improvement 0.10. -/
def demo_results : ValidationResults :=
  ⟨[("faithfulness", 4/5)], [("faithfulness", 22/25)],
   [("faithfulness", ⟨2/25, 1/10⟩)]⟩

/-- A `.json` object whose read fails with a `ClientError`. -/
def failObj : S3Object := ⟨"data.json", .error ()⟩

/-! ### Helper lemmas -/

theorem zip_replicate_none (l : List String) :
    l.zip (List.replicate l.length (none : Option String)) =
      l.map (fun p => (p, none)) := by
  induction l with
  | nil => rfl
  | cons a t ih => simp [List.replicate_succ, ih]

theorem zip_getElem? {α β : Type} :
    ∀ (l1 : List α) (l2 : List β) (i : Nat),
      (l1.zip l2)[i]? = (l1[i]?).bind (fun a => (l2[i]?).map (Prod.mk a))
  | [], _, _ => by simp
  | _ :: _, [], _ => by simp
  | _ :: t1, _ :: t2, 0 => by simp
  | _ :: t1, _ :: t2, i + 1 => by
    simpa using zip_getElem? t1 t2 i

theorem lookup_cons {α β : Type} [BEq α] (a k : α) (v : β) (l : List (α × β)) :
    List.lookup a ((k, v) :: l) = if a == k then some v else List.lookup a l := by
  cases h : a == k <;> simp [List.lookup, h]

/-- The registry maps a name to the mean-of-scores loop over that name's
external scorer. -/
theorem available_metrics_lookup (mc : MetricsCalculator) (name : String) :
    mc.available_metrics.lookup name = (scorer_for mc name).map score_loop := by
  unfold MetricsCalculator.available_metrics scorer_for
  rw [lookup_cons, lookup_cons, lookup_cons, lookup_cons]
  by_cases h1 : name = "faithfulness"
  · simp [h1]
    rfl
  by_cases h2 : name = "context_utilization"
  · simp [h1, h2]
    rfl
  by_cases h3 : name = "answer_relevancy"
  · simp [h1, h2, h3]
    rfl
  by_cases h4 : name = "context_recall"
  · simp [h1, h2, h3, h4]
    rfl
  · simp [h1, h2, h3, h4, List.lookup]

theorem available_metrics_lookup_isSome (mc : MetricsCalculator) (name : String) :
    (mc.available_metrics.lookup name).isSome ↔ name ∈ registered_metric_names := by
  rw [available_metrics_lookup]
  unfold scorer_for
  split_ifs <;> simp_all [registered_metric_names]

theorem calc_loop_lookup (mc : MetricsCalculator) (model : GenAIModel)
    (td : List TestDataItem) (ms : List String) (name : String) :
    (calc_loop mc model td ms).lookup name =
      if name ∈ ms then (mc.available_metrics.lookup name).map (fun f => f model td)
      else none := by
  induction ms with
  | nil => simp [calc_loop]
  | cons m rest ih =>
    simp only [calc_loop]
    by_cases hm : name = m
    · subst hm
      cases h : mc.available_metrics.lookup name with
      | none =>
        simp only [h]
        rw [ih]
        simp [h]
      | some f =>
        simp only [h]
        rw [lookup_cons]
        simp [h]
    · cases h : mc.available_metrics.lookup m with
      | none =>
        simp only [h]
        rw [ih]
        simp [hm]
      | some f =>
        simp only [h]
        rw [lookup_cons]
        have hb : (name == m) = false := beq_eq_false_iff_ne.mpr hm
        simp [hb, ih, hm]

/-- The output of `calculate_metrics` on an explicit metric list, as a
mapping: known requested names score via the registry, everything else is
absent. -/
theorem calculate_metrics_lookup (mc : MetricsCalculator) (model : GenAIModel)
    (td : List TestDataItem) (metrics : List String) (name : String) :
    (mc.calculate_metrics model td (some metrics)).lookup name =
      if name ∈ metrics then (mc.available_metrics.lookup name).map (fun f => f model td)
      else none :=
  calc_loop_lookup mc model td metrics name

/-! ### Claim theorems -/

/-- C3: for either provider variant, `generate_test_data` returns one output
item per input example, in input order, and the i-th output's
`original_question`/`original_answer` fields copy the i-th input's
`question`/`answer` fields verbatim. -/
theorem generate_test_data_pointwise (azure : AzureOpenAIModel)
    (bedrock : BedrockModel) (dev : List StrDict) :
    ((azure.generate_test_data dev).length = dev.length ∧
     (bedrock.generate_test_data dev).length = dev.length) ∧
    (∀ (i : Nat) (item : StrDict) (q a : String), dev[i]? = some item →
       item.lookup "question" = some q → item.lookup "answer" = some a →
       ∃ outA outB : TestDataItem, (azure.generate_test_data dev)[i]? = some outA ∧
         (bedrock.generate_test_data dev)[i]? = some outB ∧
         outA.original_question = q ∧ outA.original_answer = a ∧
         outB.original_question = q ∧ outB.original_answer = a) := by
  constructor
  · constructor <;>
      simp [AzureOpenAIModel.generate_test_data, BedrockModel.generate_test_data]
  · intro i item q a hi hq ha
    simp only [AzureOpenAIModel.generate_test_data, BedrockModel.generate_test_data,
      List.getElem?_map, hi, Option.map_some']
    exact ⟨_, _, rfl, rfl, by simp [hq], by simp [ha], by simp [hq], by simp [ha]⟩

/-- Witness for C3 at a concrete development example. -/
theorem generate_test_data_pointwise_witness :
    ∃ outA outB : TestDataItem, (azure₀.generate_test_data [devItem₀])[0]? = some outA ∧
      (bedrock₀.generate_test_data [devItem₀])[0]? = some outB ∧
      outA.original_question = "Q0" ∧ outA.original_answer = "A0" ∧
      outB.original_question = "Q0" ∧ outB.original_answer = "A0" :=
  (generate_test_data_pointwise azure₀ bedrock₀ [devItem₀]).2 0 devItem₀ "Q0" "A0"
    (by rfl) (by simp [devItem₀, List.lookup]) (by simp [devItem₀, List.lookup])

/-- C10: for both provider variants, `batch_generate` with an explicit
contexts list silently returns `min` many responses, pairing prompts and
contexts positionally; with contexts omitted it returns one response per
prompt, in prompt order. -/
theorem batch_generate_pairing (azure : AzureOpenAIModel) (bedrock : BedrockModel)
    (prompts : List String) (contexts : List (Option String)) :
    (azure.batch_generate prompts (some contexts)).length =
        min prompts.length contexts.length ∧
    (bedrock.batch_generate prompts (some contexts)).length =
        min prompts.length contexts.length ∧
    (∀ i : Nat, (azure.batch_generate prompts (some contexts))[i]? =
        (prompts[i]?).bind (fun p => (contexts[i]?).map
          (fun c => azure.generate_response p c))) ∧
    (∀ i : Nat, (bedrock.batch_generate prompts (some contexts))[i]? =
        (prompts[i]?).bind (fun p => (contexts[i]?).map
          (fun c => bedrock.generate_response p c))) ∧
    azure.batch_generate prompts none =
        prompts.map (fun p => azure.generate_response p none) ∧
    bedrock.batch_generate prompts none =
        prompts.map (fun p => bedrock.generate_response p none) := by
  refine ⟨?_, ?_, ?_, ?_, ?_, ?_⟩
  · simp [AzureOpenAIModel.batch_generate]
  · simp [BedrockModel.batch_generate]
  · intro i
    simp [AzureOpenAIModel.batch_generate, zip_getElem?, Option.bind_map]
    cases prompts[i]? <;> cases contexts[i]? <;> simp
  · intro i
    simp [BedrockModel.batch_generate, zip_getElem?, Option.bind_map]
    cases prompts[i]? <;> cases contexts[i]? <;> simp
  · simp [AzureOpenAIModel.batch_generate, zip_replicate_none]
  · simp [BedrockModel.batch_generate, zip_replicate_none]

/-- C4: for every model, every registered metric name and every test-data
sequence, the score `calculate_metrics` returns for that name is the
arithmetic mean of the per-item external scorer outputs taken in input
order, and exactly `0` on an empty test-data sequence. -/
theorem calculate_metrics_mean (mc : MetricsCalculator) (model : GenAIModel)
    (td : List TestDataItem) (name : String) (metrics : List String) (scorer : Scorer)
    (hsc : scorer_for mc name = some scorer) (hmem : name ∈ metrics) :
    (mc.calculate_metrics model td (some metrics)).lookup name =
      some (meanQ (external_scores scorer model td)) ∧
    (td = [] → (mc.calculate_metrics model td (some metrics)).lookup name = some 0) := by
  have h1 : (mc.calculate_metrics model td (some metrics)).lookup name =
      some (meanQ (external_scores scorer model td)) := by
    rw [calculate_metrics_lookup, if_pos hmem, available_metrics_lookup, hsc]
    rfl
  refine ⟨h1, fun htd => ?_⟩
  rw [h1, htd]
  simp [external_scores, meanQ]

/-- Witness for C4: the demo calculator on a one-item and on an empty
test-data sequence. -/
theorem calculate_metrics_mean_witness :
    ((demoCalc.calculate_metrics origModel [demoItem] (some ["faithfulness"])).lookup
        "faithfulness" =
      some (meanQ (external_scores demoCalc.faithfulness_scorer origModel [demoItem]))) ∧
    ((demoCalc.calculate_metrics origModel [] (some ["faithfulness"])).lookup
        "faithfulness" = some 0) :=
  ⟨(calculate_metrics_mean demoCalc origModel [demoItem] "faithfulness" ["faithfulness"]
      demoCalc.faithfulness_scorer (by simp [scorer_for]) (by simp)).1,
   (calculate_metrics_mean demoCalc origModel [] "faithfulness" ["faithfulness"]
      demoCalc.faithfulness_scorer (by simp [scorer_for]) (by simp)).2 rfl⟩

/-- C8: `calculate_metrics` never fails on an unknown metric name — it is
total, the unknown name is absent from the returned mapping, and every
recognized requested name is still present. -/
theorem calculate_metrics_unknown_skipped (mc : MetricsCalculator) (model : GenAIModel)
    (td : List TestDataItem) (metrics : List String) (name : String)
    (hunk : name ∉ registered_metric_names) :
    (mc.calculate_metrics model td (some metrics)).lookup name = none ∧
    ∀ m ∈ metrics, m ∈ registered_metric_names →
      ((mc.calculate_metrics model td (some metrics)).lookup m).isSome := by
  constructor
  · rw [calculate_metrics_lookup]
    by_cases h : name ∈ metrics
    · rw [if_pos h]
      cases hh : mc.available_metrics.lookup name with
      | none => simp
      | some f =>
        exact absurd ((available_metrics_lookup_isSome mc name).1 (by simp [hh])) hunk
    · rw [if_neg h]
  · intro m hm hreg
    rw [calculate_metrics_lookup, if_pos hm]
    have hs := (available_metrics_lookup_isSome mc m).2 hreg
    cases hh : mc.available_metrics.lookup m with
    | none => rw [hh] at hs; simp at hs
    | some f => simp

/-- Witness for C8: requesting `["bogus", "faithfulness"]` yields a mapping
without `"bogus"` and with `"faithfulness"`. -/
theorem calculate_metrics_unknown_skipped_witness :
    ((demoCalc.calculate_metrics origModel [demoItem]
        (some ["bogus", "faithfulness"])).lookup "bogus" = none) ∧
    ∀ m ∈ ["bogus", "faithfulness"], m ∈ registered_metric_names →
      ((demoCalc.calculate_metrics origModel [demoItem]
          (some ["bogus", "faithfulness"])).lookup m).isSome :=
  calculate_metrics_unknown_skipped demoCalc origModel [demoItem]
    ["bogus", "faithfulness"] "bogus" (by simp [registered_metric_names])

/-! ### Comparison-loop lemmas -/

theorem comparison_loop_ok_lookup (o c : List (String × ℚ)) (ms : List String) :
    ∀ (comp : List (String × ComparisonEntry)) (m : String) (entry : ComparisonEntry),
      comparison_loop o c ms = .ok comp → comp.lookup m = some entry →
      ∃ ov cv, o.lookup m = some ov ∧ c.lookup m = some cv ∧ ov ≠ 0 ∧
        entry = ⟨cv - ov, (cv - ov) / ov⟩ := by
  induction ms with
  | nil =>
    intro comp m entry h hl
    simp only [comparison_loop] at h
    cases h
    simp at hl
  | cons metric rest ih =>
    intro comp m entry h hl
    simp only [comparison_loop] at h
    cases ho : o.lookup metric with
    | none => simp [ho] at h
    | some ov =>
      simp only [ho] at h
      cases hc : c.lookup metric with
      | none => simp [hc] at h
      | some cv =>
        simp only [hc] at h
        by_cases hz : ov = 0
        · simp [hz] at h
        · rw [if_neg hz] at h
          cases hrec : comparison_loop o c rest with
          | error e => simp [hrec] at h
          | ok comp' =>
            simp only [hrec] at h
            cases h
            rw [lookup_cons] at hl
            by_cases hm : m = metric
            · subst hm
              simp only [beq_self_eq_true, if_true] at hl
              cases hl
              exact ⟨ov, cv, ho, hc, hz, rfl⟩
            · have hb : (m == metric) = false := beq_eq_false_iff_ne.mpr hm
              simp only [hb, Bool.false_eq_true, if_false] at hl
              exact ih comp' m entry hrec hl

theorem comparison_loop_zero (o c : List (String × ℚ)) (ms : List String)
    (hsome : ∀ m ∈ ms, (o.lookup m).isSome ∧ (c.lookup m).isSome)
    (hz : ∃ m ∈ ms, o.lookup m = some 0) :
    comparison_loop o c ms = .error .zeroDivisionError := by
  induction ms with
  | nil => simp at hz
  | cons metric rest ih =>
    obtain ⟨hs1, hs2⟩ := hsome metric (by simp)
    obtain ⟨ov, ho⟩ := Option.isSome_iff_exists.1 hs1
    obtain ⟨cv, hc⟩ := Option.isSome_iff_exists.1 hs2
    simp only [comparison_loop, ho, hc]
    by_cases hov : ov = 0
    · rw [if_pos hov]
    · rw [if_neg hov]
      have hrec : comparison_loop o c rest = .error .zeroDivisionError := by
        apply ih
        · intro m hm
          exact hsome m (by simp [hm])
        · obtain ⟨m, hm, hzm⟩ := hz
          rcases List.mem_cons.1 hm with h | h
          · subst h
            rw [ho] at hzm
            cases hzm
            exact absurd rfl hov
          · exact ⟨m, h, hzm⟩
      rw [hrec]

theorem comparison_loop_missing (o c : List (String × ℚ)) (ms : List String)
    (hmiss : ∃ m ∈ ms, o.lookup m = none ∨ c.lookup m = none) :
    ∃ e, comparison_loop o c ms = .error e ∧
      (e = .zeroDivisionError ∨
        ∃ k, k ∈ ms ∧ e = .keyError k ∧ (o.lookup k = none ∨ c.lookup k = none)) := by
  induction ms with
  | nil => simp at hmiss
  | cons metric rest ih =>
    cases ho : o.lookup metric with
    | none =>
      exact ⟨.keyError metric, by simp [comparison_loop, ho],
        Or.inr ⟨metric, by simp, rfl, Or.inl ho⟩⟩
    | some ov =>
      cases hc : c.lookup metric with
      | none =>
        exact ⟨.keyError metric, by simp [comparison_loop, ho, hc],
          Or.inr ⟨metric, by simp, rfl, Or.inr hc⟩⟩
      | some cv =>
        by_cases hz : ov = 0
        · exact ⟨.zeroDivisionError, by simp [comparison_loop, ho, hc, hz], Or.inl rfl⟩
        · have hmiss' : ∃ m ∈ rest, o.lookup m = none ∨ c.lookup m = none := by
            obtain ⟨m, hm, hcase⟩ := hmiss
            rcases List.mem_cons.1 hm with h | h
            · subst h
              rcases hcase with h' | h'
              · rw [ho] at h'; simp at h'
              · rw [hc] at h'; simp at h'
            · exact ⟨m, h, hcase⟩
          obtain ⟨e, he, hprop⟩ := ih hmiss'
          refine ⟨e, by simp [comparison_loop, ho, hc, hz, he], ?_⟩
          rcases hprop with h | ⟨k, hk, hek, hnone⟩
          · exact Or.inl h
          · exact Or.inr ⟨k, by simp [hk], hek, hnone⟩

theorem comparison_loop_keyError (o c : List (String × ℚ)) (ms : List String)
    (hnz : ∀ m ∈ ms, o.lookup m ≠ some 0)
    (hmiss : ∃ m ∈ ms, o.lookup m = none ∨ c.lookup m = none) :
    ∃ k, k ∈ ms ∧ (o.lookup k = none ∨ c.lookup k = none) ∧
      comparison_loop o c ms = .error (.keyError k) := by
  induction ms with
  | nil => simp at hmiss
  | cons metric rest ih =>
    cases ho : o.lookup metric with
    | none => exact ⟨metric, by simp, Or.inl ho, by simp [comparison_loop, ho]⟩
    | some ov =>
      cases hc : c.lookup metric with
      | none => exact ⟨metric, by simp, Or.inr hc, by simp [comparison_loop, ho, hc]⟩
      | some cv =>
        have hz : ov ≠ 0 := by
          intro h
          subst h
          exact hnz metric (by simp) ho
        have hmiss' : ∃ m ∈ rest, o.lookup m = none ∨ c.lookup m = none := by
          obtain ⟨m, hm, hcase⟩ := hmiss
          rcases List.mem_cons.1 hm with h | h
          · subst h
            rcases hcase with h' | h'
            · rw [ho] at h'; simp at h'
            · rw [hc] at h'; simp at h'
          · exact ⟨m, h, hcase⟩
        have hnz' : ∀ m ∈ rest, o.lookup m ≠ some 0 := fun m hm => hnz m (by simp [hm])
        obtain ⟨k, hk, hn, he⟩ := ih hnz' hmiss'
        exact ⟨k, by simp [hk], hn, by simp [comparison_loop, ho, hc, hz, he]⟩

/-! ### Validator claims -/

/-- C1: every comparison entry in a successful `validate` result satisfies
`difference = challenger - original` and
`relative_improvement = (challenger - original) / original`, with a nonzero
original score. -/
theorem validate_comparison_entry (mc : MetricsCalculator)
    (original_model challenger_model : GenAIModel) (development_data : List StrDict)
    (metrics : Option (List String)) (res : ValidationResults) (m : String)
    (entry : ComparisonEntry)
    (hok : validate mc original_model challenger_model development_data metrics = .ok res)
    (hentry : res.comparison_metrics.lookup m = some entry) :
    ∃ ov cv, res.original_metrics.lookup m = some ov ∧
      res.challenger_metrics.lookup m = some cv ∧ ov ≠ 0 ∧
      entry.difference = cv - ov ∧ entry.relative_improvement = (cv - ov) / ov := by
  simp only [validate] at hok
  split at hok
  · exact absurd hok (by simp)
  · rename_i comp heq
    cases hok
    obtain ⟨ov, cv, h1, h2, h3, h4⟩ :=
      comparison_loop_ok_lookup _ _ _ comp m entry heq hentry
    exact ⟨ov, cv, h1, h2, h3, by rw [h4], by rw [h4]⟩

theorem demo_validate_eq : validate demoCalc origModel challModel []
    (some ["faithfulness"]) = .ok demo_results := by
  norm_num [validate, Option.getD, demo_results, challModel, origModel, demoItem,
    MetricsCalculator.calculate_metrics, calc_loop, MetricsCalculator.available_metrics,
    lookup_cons, List.lookup, MetricsCalculator.calculate_faithfulness, score_loop,
    demoCalc, demoScorer, comparison_loop, ComparisonEntry.mk.injEq]
  refine ⟨by decide, ?_, ?_⟩ <;>
    rw [if_neg (by decide : ¬("chall-answer" = "orig-answer"))] <;> norm_num

/-- Witness for C1: the concrete 0.80 / 0.88 comparison from the spec,
whose entry is exactly `{difference: 0.08, relative_improvement: 0.10}`. -/
theorem validate_comparison_entry_witness :
    (validate demoCalc origModel challModel [] (some ["faithfulness"]) =
        .ok demo_results) ∧
    (demo_results.comparison_metrics.lookup "faithfulness" =
        some ⟨2/25, 1/10⟩) ∧
    ((2:ℚ)/25 = 8/100 ∧ (1:ℚ)/10 = 10/100) ∧
    ∃ ov cv, demo_results.original_metrics.lookup "faithfulness" = some ov ∧
      demo_results.challenger_metrics.lookup "faithfulness" = some cv ∧ ov ≠ 0 ∧
      (⟨2/25, 1/10⟩ : ComparisonEntry).difference = cv - ov ∧
      (⟨2/25, 1/10⟩ : ComparisonEntry).relative_improvement = (cv - ov) / ov :=
  ⟨demo_validate_eq, by simp [demo_results, List.lookup], by norm_num,
    validate_comparison_entry demoCalc origModel challModel [] (some ["faithfulness"])
      demo_results "faithfulness" ⟨2/25, 1/10⟩ demo_validate_eq
      (by simp [demo_results, List.lookup])⟩

/-- C2 (amended): when every requested metric is registered and the original
model's computed score for some requested metric is exactly zero, `validate`
fails with the division fault and returns no result. -/
theorem validate_zero_original_divides (mc : MetricsCalculator)
    (original_model challenger_model : GenAIModel) (development_data : List StrDict)
    (ms : List String)
    (hall : ∀ m ∈ ms, m ∈ registered_metric_names)
    (hzero : ∃ m ∈ ms,
      (mc.calculate_metrics original_model
        (challenger_model.generate_test_data development_data) (some ms)).lookup m =
          some 0) :
    validate mc original_model challenger_model development_data (some ms) =
      .error .zeroDivisionError := by
  have hsome : ∀ m ∈ ms,
      ((mc.calculate_metrics original_model
        (challenger_model.generate_test_data development_data) (some ms)).lookup m).isSome ∧
      ((mc.calculate_metrics challenger_model
        (challenger_model.generate_test_data development_data) (some ms)).lookup m).isSome := by
    intro m hm
    obtain ⟨f, hf⟩ := Option.isSome_iff_exists.1
      ((available_metrics_lookup_isSome mc m).2 (hall m hm))
    constructor <;> · rw [calculate_metrics_lookup, if_pos hm, hf]; rfl
  have hcl := comparison_loop_zero _ _ ms hsome hzero
  simp only [validate, Option.getD]
  rw [hcl]

/-- Witness for C2: empty test data makes the original faithfulness score 0,
and `validate` then fails with the division fault. -/
theorem validate_zero_original_divides_witness :
    validate demoCalc origModel origModel [] (some ["faithfulness"]) =
      .error .zeroDivisionError :=
  validate_zero_original_divides demoCalc origModel origModel [] ["faithfulness"]
    (by simp [registered_metric_names])
    ⟨"faithfulness", by simp, by
      simp [origModel, MetricsCalculator.calculate_metrics, calc_loop,
        MetricsCalculator.available_metrics, lookup_cons, List.lookup,
        MetricsCalculator.calculate_faithfulness, score_loop]⟩

/-- Counterexample to C2 as stated: with an unknown name ahead of the
zero-scored metric in the requested list, the failure is a `KeyError`, not
an arithmetic fault, even though a requested metric's original score is 0. -/
theorem validate_zero_original_counterexample :
    validate demoCalc origModel origModel [] (some ["bogus", "faithfulness"]) =
      .error (.keyError "bogus") ∧
    (demoCalc.calculate_metrics origModel (origModel.generate_test_data [])
        (some ["bogus", "faithfulness"])).lookup "faithfulness" = some 0 ∧
    PyErr.keyError "bogus" ≠ PyErr.zeroDivisionError := by
  refine ⟨?_, ?_, by decide⟩
  · simp [validate, origModel, MetricsCalculator.calculate_metrics, calc_loop,
      MetricsCalculator.available_metrics, lookup_cons, List.lookup,
      MetricsCalculator.calculate_faithfulness, score_loop, comparison_loop]
  · simp [origModel, MetricsCalculator.calculate_metrics, calc_loop,
      MetricsCalculator.available_metrics, lookup_cons, List.lookup,
      MetricsCalculator.calculate_faithfulness, score_loop]

/-- C9 (amended): requesting any metric name outside the registry makes
`validate` fail (never a partial result): it raises a `KeyError` on a name
outside the registry, unless a zero original score on an earlier recognized
metric raises the division fault first; with no zero original scores the
failure is definitely the `KeyError`. -/
theorem validate_unknown_metric_never_ok (mc : MetricsCalculator)
    (original_model challenger_model : GenAIModel) (development_data : List StrDict)
    (ms : List String) (m : String)
    (hm : m ∈ ms) (hunk : m ∉ registered_metric_names) :
    (∃ e, validate mc original_model challenger_model development_data (some ms) =
        .error e ∧
      (e = .zeroDivisionError ∨ ∃ k, k ∉ registered_metric_names ∧ e = .keyError k)) ∧
    ((∀ k ∈ ms,
        (mc.calculate_metrics original_model
          (challenger_model.generate_test_data development_data) (some ms)).lookup k ≠
            some 0) →
      ∃ k, k ∉ registered_metric_names ∧
        validate mc original_model challenger_model development_data (some ms) =
          .error (.keyError k)) := by
  have hnone : (mc.calculate_metrics original_model
      (challenger_model.generate_test_data development_data) (some ms)).lookup m =
        none := by
    rw [calculate_metrics_lookup, if_pos hm]
    cases hh : mc.available_metrics.lookup m with
    | none => simp
    | some f =>
      exact absurd ((available_metrics_lookup_isSome mc m).1 (by simp [hh])) hunk
  have reg_of : ∀ k, k ∈ ms →
      ((mc.calculate_metrics original_model
          (challenger_model.generate_test_data development_data) (some ms)).lookup k =
            none ∨
        (mc.calculate_metrics challenger_model
          (challenger_model.generate_test_data development_data) (some ms)).lookup k =
            none) →
      k ∉ registered_metric_names := by
    intro k hk hcase hreg
    obtain ⟨f, hf⟩ := Option.isSome_iff_exists.1
      ((available_metrics_lookup_isSome mc k).2 hreg)
    rcases hcase with h | h <;>
      (rw [calculate_metrics_lookup, if_pos hk, hf] at h; simp at h)
  constructor
  · obtain ⟨e, he, hprop⟩ := comparison_loop_missing _ _ ms ⟨m, hm, Or.inl hnone⟩
    refine ⟨e, ?_, ?_⟩
    · simp only [validate, Option.getD]
      rw [he]
    · rcases hprop with h | ⟨k, hk, hek, hcase⟩
      · exact Or.inl h
      · exact Or.inr ⟨k, reg_of k hk hcase, hek⟩
  · intro hnz
    obtain ⟨k, hk, hcase, he⟩ :=
      comparison_loop_keyError _ _ ms hnz ⟨m, hm, Or.inl hnone⟩
    refine ⟨k, reg_of k hk hcase, ?_⟩
    simp only [validate, Option.getD]
    rw [he]

/-- Witness for C9: requesting only the unknown name `"bogus"` fails with a
`KeyError`. -/
theorem validate_unknown_metric_never_ok_witness :
    (∃ e, validate demoCalc origModel challModel [] (some ["bogus"]) = .error e ∧
      (e = .zeroDivisionError ∨ ∃ k, k ∉ registered_metric_names ∧ e = .keyError k)) ∧
    ((∀ k ∈ ["bogus"],
        (demoCalc.calculate_metrics origModel
          (challModel.generate_test_data []) (some ["bogus"])).lookup k ≠ some 0) →
      ∃ k, k ∉ registered_metric_names ∧
        validate demoCalc origModel challModel [] (some ["bogus"]) =
          .error (.keyError k)) :=
  validate_unknown_metric_never_ok demoCalc origModel challModel [] ["bogus"] "bogus"
    (by simp) (by simp [registered_metric_names])

/-- Counterexample to C9 as stated: with a zero-scored recognized metric
ahead of the unknown name, `validate` raises the division fault, not a
`KeyError`. -/
theorem validate_unknown_metric_counterexample :
    validate demoCalc origModel origModel [] (some ["faithfulness", "bogus"]) =
      .error .zeroDivisionError ∧
    ("bogus" ∈ ["faithfulness", "bogus"] ∧ "bogus" ∉ registered_metric_names) ∧
    PyErr.isKeyError PyErr.zeroDivisionError = false := by
  refine ⟨?_, by constructor <;> simp [registered_metric_names], by decide⟩
  simp [validate, origModel, MetricsCalculator.calculate_metrics, calc_loop,
    MetricsCalculator.available_metrics, lookup_cons, List.lookup,
    MetricsCalculator.calculate_faithfulness, score_loop, comparison_loop]

/-! ### Challenger-selector claims -/

theorem task_models_lookup_qa :
    task_models.lookup "qa" = some ⟨"gpt-4", "azure", 92/100, "SQuAD 2.0"⟩ := by
  simp [task_models, lookup_cons]

theorem task_models_lookup_summarization :
    task_models.lookup "summarization" =
      some ⟨"anthropic.claude-v2", "bedrock", 89/100, "ROUGE-L on CNN/DailyMail"⟩ := by
  simp [task_models, lookup_cons]

theorem task_models_lookup_reasoning :
    task_models.lookup "reasoning" = some ⟨"gpt-4", "azure", 90/100, "GSM8K"⟩ := by
  simp [task_models, lookup_cons]

theorem task_models_lookup_none (s : String)
    (hs : s ∉ ["qa", "summarization", "reasoning"]) : task_models.lookup s = none := by
  simp only [List.mem_cons, List.not_mem_nil, or_false, not_or] at hs
  obtain ⟨h1, h2, h3⟩ := hs
  have b1 : (s == "qa") = false := beq_eq_false_iff_ne.mpr h1
  have b2 : (s == "summarization") = false := beq_eq_false_iff_ne.mpr h2
  have b3 : (s == "reasoning") = false := beq_eq_false_iff_ne.mpr h3
  simp [task_models, List.lookup, b1, b2, b3]

/-- C5: `get_best_model` fails with the unknown-task `ValueError` outside the
three-tag table; for the three defined tags it fails with the
missing-credentials `ValueError` of the selected provider (Azure for
qa/reasoning, Bedrock for summarization) when that provider's credentials
are absent, and otherwise constructs the corresponding provider variant. -/
theorem get_best_model_cases (t : String) (ac bc : Option StrDict) :
    (pyLower t ∉ ["qa", "summarization", "reasoning"] →
      (ChallengerSelector.mkSelector t).get_best_model ac bc =
        .error (.valueError (unknown_task_msg (pyLower t)))) ∧
    ((pyLower t = "qa" ∨ pyLower t = "reasoning") → ac = none →
      (ChallengerSelector.mkSelector t).get_best_model ac bc =
        .error (.valueError azure_creds_msg)) ∧
    (pyLower t = "summarization" → bc = none →
      (ChallengerSelector.mkSelector t).get_best_model ac bc =
        .error (.valueError aws_creds_msg)) ∧
    (∀ (creds : StrDict) (api_key api_base : String),
      (pyLower t = "qa" ∨ pyLower t = "reasoning") → ac = some creds →
      creds.lookup "api_key" = some api_key →
      creds.lookup "api_base" = some api_base →
      (ChallengerSelector.mkSelector t).get_best_model ac bc =
        .ok (.azure "gpt-4" api_key api_base
          ((creds.lookup "api_version").getD "2024-02-15-preview"))) ∧
    (∀ creds : StrDict, pyLower t = "summarization" → bc = some creds →
      creds ≠ [] →
      (ChallengerSelector.mkSelector t).get_best_model ac bc =
        .ok (.bedrock "anthropic.claude-v2" creds)) := by
  refine ⟨?_, ?_, ?_, ?_, ?_⟩
  · intro h
    simp only [ChallengerSelector.get_best_model, ChallengerSelector.mkSelector,
      task_models_lookup_none _ h]
  · rintro (h | h) hac <;> subst hac <;>
      simp only [ChallengerSelector.get_best_model, ChallengerSelector.mkSelector, h,
        task_models_lookup_qa, task_models_lookup_reasoning] <;>
      simp [credsFalsy]
  · intro h hbc
    subst hbc
    simp only [ChallengerSelector.get_best_model, ChallengerSelector.mkSelector, h,
      task_models_lookup_summarization]
    simp [credsFalsy]
  · intro creds api_key api_base h hac hkey hbase
    subst hac
    have hne : creds ≠ [] := by
      intro hnil
      subst hnil
      simp [List.lookup] at hkey
    cases creds with
    | nil => exact absurd rfl hne
    | cons p l =>
      rcases h with h | h <;>
        simp only [ChallengerSelector.get_best_model, ChallengerSelector.mkSelector, h,
          task_models_lookup_qa, task_models_lookup_reasoning] <;>
        simp [credsFalsy, Option.getD, hkey, hbase]
  · intro creds h hbc hne
    subst hbc
    cases creds with
    | nil => exact absurd rfl hne
    | cons p l =>
      simp only [ChallengerSelector.get_best_model, ChallengerSelector.mkSelector, h,
        task_models_lookup_summarization]
      simp [credsFalsy, Option.getD]

/-- Witness for C5: one construction success and the three failure modes at
concrete inputs. -/
theorem get_best_model_cases_witness :
    ((ChallengerSelector.mkSelector "qa").get_best_model
        (some [("api_key", "k"), ("api_base", "b")]) none =
      .ok (.azure "gpt-4" "k" "b" "2024-02-15-preview")) ∧
    ((ChallengerSelector.mkSelector "poetry").get_best_model none none =
      .error (.valueError (unknown_task_msg (pyLower "poetry")))) ∧
    ((ChallengerSelector.mkSelector "summarization").get_best_model none none =
      .error (.valueError aws_creds_msg)) ∧
    ((ChallengerSelector.mkSelector "reasoning").get_best_model none none =
      .error (.valueError azure_creds_msg)) := by
  refine ⟨?_, ?_, ?_, ?_⟩
  · have h := (get_best_model_cases "qa" (some [("api_key", "k"), ("api_base", "b")])
      none).2.2.2.1 [("api_key", "k"), ("api_base", "b")] "k" "b" (Or.inl (by decide))
      rfl (by simp [List.lookup]) (by simp [List.lookup])
    simpa [List.lookup] using h
  · exact (get_best_model_cases "poetry" none none).1 (by decide)
  · exact (get_best_model_cases "summarization" none none).2.2.1 (by decide) rfl
  · exact (get_best_model_cases "reasoning" none none).2.1 (Or.inr (by decide)) rfl

/-- C6: constructing the validator without a challenger calls the selector
with no credentials, which fails with a missing-credentials `ValueError` for
every task in the table, so no validator state is produced. -/
theorem model_validator_init_requires_credentials (inst : ConstructedModel → GenAIModel)
    (original : GenAIModel) (t : String)
    (h : pyLower t = "qa" ∨ pyLower t = "summarization" ∨ pyLower t = "reasoning") :
    ∃ msg, model_validator_init inst original none t = .error (.valueError msg) ∧
      (msg = azure_creds_msg ∨ msg = aws_creds_msg) := by
  rcases h with h | h | h
  · refine ⟨azure_creds_msg, ?_, Or.inl rfl⟩
    simp only [model_validator_init, ChallengerSelector.get_best_model,
      ChallengerSelector.mkSelector, h, task_models_lookup_qa]
    simp [credsFalsy]
  · refine ⟨aws_creds_msg, ?_, Or.inr rfl⟩
    simp only [model_validator_init, ChallengerSelector.get_best_model,
      ChallengerSelector.mkSelector, h, task_models_lookup_summarization]
    simp [credsFalsy]
  · refine ⟨azure_creds_msg, ?_, Or.inl rfl⟩
    simp only [model_validator_init, ChallengerSelector.get_best_model,
      ChallengerSelector.mkSelector, h, task_models_lookup_reasoning]
    simp [credsFalsy]

/-- Witness for C6 at the `"qa"` task. -/
theorem model_validator_init_requires_credentials_witness :
    ∃ msg, model_validator_init (fun _ => origModel) origModel none "qa" =
        .error (.valueError msg) ∧
      (msg = azure_creds_msg ∨ msg = aws_creds_msg) :=
  model_validator_init_requires_credentials (fun _ => origModel) origModel "qa"
    (Or.inl (by decide))

/-! ### Extractor claim -/

/-- C7 (amended): a per-object read failure is non-fatal and recovered
locally, but the failing `.json` object contributes exactly one empty record
to the returned sequence (the empty-dict fallback is appended), while every
other object's records are unaffected. -/
theorem extract_read_failure_appends_empty (pre post : List S3Object) (o : S3Object)
    (hjson : pyEndsWith o.key ".json" = true) (hfail : o.read = .error ()) :
    extract (pre ++ o :: post) = extract pre ++ [[]] ++ extract post := by
  induction pre with
  | nil => simp [extract, read_json_file, hjson, hfail]
  | cons p ps ih =>
    simp only [List.cons_append, extract]
    by_cases hp : pyEndsWith p.key ".json" = true
    · simp only [hp, if_true, List.append_eq, ih, List.append_assoc]
    · simp only [if_neg hp, List.append_eq, ih]

/-- Witness for C7's amended statement at a concrete failing object. -/
theorem extract_read_failure_appends_empty_witness :
    extract ([] ++ failObj :: []) = extract [] ++ [[]] ++ extract [] :=
  extract_read_failure_appends_empty [] [] failObj (by decide) rfl

/-- Counterexample to C7 as stated: the failing object does not contribute
nothing — extraction of a single failing `.json` object returns one empty
record, not the empty sequence. -/
theorem extract_read_failure_counterexample :
    extract [failObj] = [([] : StrDict)] ∧ extract [failObj] ≠ [] := by
  constructor
  · simp [extract, failObj, read_json_file, (by decide : pyEndsWith "data.json" ".json" = true)]
  · simp [extract, failObj, read_json_file, (by decide : pyEndsWith "data.json" ".json" = true)]

end GenAIValidator
